import Mathlib

/-!
Shallow embedding of `src/forms.js` (StaticKit standalone form binding):
the submission lifecycle (`submit`), the default error renderer
(`renderErrors`), the default success callback (`onSuccess`), form-element
resolution (`getFormElement`) and binding (`init`), together with the
outbound-data assembly performed at the top of `submit`.

The lifecycle is modelled as a trace semantics: `submit` returns the list of
observable calls it makes (in order) together with the settlement of the
returned promise.  A configured hook is modelled by its observable control
effect — whether a given invocation returns normally or throws — which is
exactly what the ordering / exactly-once / exception-flow properties are
about.  DOM-mutating defaults (`renderErrors`, `onSuccess`) are modelled
separately over an explicit DOM state.
-/

set_option autoImplicit false

namespace StaticKit.Forms

/-- A field error record from the response body: `{field, code, message}`. -/
structure FieldError where
  field : String
  code : String
  message : String
deriving DecidableEq, Repr

/-- The response body of `client.submitForm`.  Only `body.errors` is read by
`submit` (in the non-200 branch); the rest of the body is opaque and
represented by a tag. -/
structure Body where
  payload : Nat := 0
  errors : List FieldError := []
deriving DecidableEq, Repr

/-- The `response` part of a `submitForm` result: only `status` is read. -/
structure Response where
  status : Nat
deriving DecidableEq, Repr

/-- A resolved `submitForm` result: `{response: {status}, body}`. -/
structure SubmitResult where
  response : Response
  body : Body
deriving DecidableEq, Repr

/-- How the awaited `client.submitForm` call settles: it resolves with a
result or rejects with an opaque error value (errors are tags). -/
inductive ClientOutcome where
  | resolve (result : SubmitResult)
  | reject (e : Nat)
deriving DecidableEq, Repr

/-- Observable calls made by the `submit` routine, in program order.
`callDefaultOnFailure` is the module-level default failure callback
(`onFailure` in `forms.js`): the `catch` block calls the module binding, not
a hook taken from the configuration, because `onFailure` is absent from the
destructuring at the top of `submit`. -/
inductive Ev where
  | callRenderErrors (errors : List FieldError)
  | callDisable
  | callOnSubmit
  | networkCall
  | callOnSuccess (body : Body)
  | callOnError (errors : List FieldError)
  | callDefaultOnFailure (e : Nat)
  | callEnable
deriving DecidableEq, Repr

/-- Settlement of the promise returned by the async `submit` routine. -/
inductive Outcome where
  | resolves
  | rejects (e : Nat)
deriving DecidableEq, Repr

/-- The behaviour of the hooks carried by a merged configuration, as far as
control flow can observe it: for each hook (and each argument it receives),
whether that invocation returns normally (`none`) or throws (`some e`).
`onFailureThrows` is the configured failure hook: the configuration carries
one (the defaults object includes `onFailure`), but the `submit` routine
never reads it — see `Ev.callDefaultOnFailure`. -/
structure SubmitConfig where
  renderErrorsThrows : List FieldError → Option Nat
  disableThrows : Option Nat
  onSubmitThrows : Option Nat
  onSuccessThrows : Body → Option Nat
  onErrorThrows : List FieldError → Option Nat
  onFailureThrows : Nat → Option Nat
  enableThrows : Option Nat

/-- A configuration whose hooks all return normally. -/
def quietConfig : SubmitConfig where
  renderErrorsThrows := fun _ => none
  disableThrows := none
  onSubmitThrows := none
  onSuccessThrows := fun _ => none
  onErrorThrows := fun _ => none
  onFailureThrows := fun _ => none
  enableThrows := none

/-- The `submit` routine of `forms.js`, as a trace semantics.  Mirrors the
source line by line:

* `renderErrors(config, [])`, `disable(config)`, `onSubmit(config)` run
  before the `try`; if one of them throws, nothing later runs and the
  promise rejects with that error;
* inside the `try`, the client call either rejects or resolves; a 200
  status runs `onSuccess(config, result.body)`, any other status reads
  `result.body.errors`, runs `renderErrors(config, errors)` then
  `onError(config, errors)`;
* any throw inside the `try` (including one raised by a hook called there)
  is caught and handed to the module-level default `onFailure`, which is a
  no-op and cannot itself throw;
* the `finally` block runs `enable(config)` exactly once on every path that
  reaches the `try`; if `enable` throws, the promise rejects with that
  error, otherwise it resolves. -/
def submit (config : SubmitConfig) (clientCall : ClientOutcome) : List Ev × Outcome :=
  match config.renderErrorsThrows [] with
  | some e => ([Ev.callRenderErrors []], Outcome.rejects e)
  | none =>
    match config.disableThrows with
    | some e => ([Ev.callRenderErrors [], Ev.callDisable], Outcome.rejects e)
    | none =>
      match config.onSubmitThrows with
      | some e => ([Ev.callRenderErrors [], Ev.callDisable, Ev.callOnSubmit], Outcome.rejects e)
      | none =>
        let pre := [Ev.callRenderErrors [], Ev.callDisable, Ev.callOnSubmit]
        let tryEvents : List Ev :=
          match clientCall with
          | ClientOutcome.reject e => [Ev.networkCall, Ev.callDefaultOnFailure e]
          | ClientOutcome.resolve result =>
            if result.response.status = 200 then
              match config.onSuccessThrows result.body with
              | some e =>
                [Ev.networkCall, Ev.callOnSuccess result.body, Ev.callDefaultOnFailure e]
              | none => [Ev.networkCall, Ev.callOnSuccess result.body]
            else
              let errors := result.body.errors
              match config.renderErrorsThrows errors with
              | some e => [Ev.networkCall, Ev.callRenderErrors errors, Ev.callDefaultOnFailure e]
              | none =>
                match config.onErrorThrows errors with
                | some e =>
                  [Ev.networkCall, Ev.callRenderErrors errors, Ev.callOnError errors,
                    Ev.callDefaultOnFailure e]
                | none => [Ev.networkCall, Ev.callRenderErrors errors, Ev.callOnError errors]
        match config.enableThrows with
        | some e => (pre ++ tryEvents ++ [Ev.callEnable], Outcome.rejects e)
        | none => (pre ++ tryEvents ++ [Ev.callEnable], Outcome.resolves)

/-- Recogniser for the `enable(config)` call event. -/
def isEnable : Ev → Bool
  | Ev.callEnable => true
  | _ => false

/-- Recogniser for the network-call marker. -/
def isNetworkCall : Ev → Bool
  | Ev.networkCall => true
  | _ => false

/-- Recogniser for a renderer invocation carrying a non-empty error list. -/
def isRenderNonempty : Ev → Bool
  | Ev.callRenderErrors (_ :: _) => true
  | _ => false

/-- The prefix of a trace strictly before the network call begins. -/
def beforeNetworkCall (tr : List Ev) : List Ev :=
  tr.takeWhile (fun ev => !isNetworkCall ev)

/-! ## The default error renderer (`renderErrors` in `forms.js`) -/

/-- An error slot: a DOM element carrying a `data-sk-error` attribute
(`element.dataset.skError` is the target field name) and mutable content
(`element.innerHTML`). -/
structure Slot where
  skError : String
  innerHTML : String
deriving DecidableEq, Repr

/-- Per-field display metadata from `config.fields`: an optional
`prettyName` and an `errorMessages` object mapping camel-cased error codes
to custom messages (modelled as an association list, first key wins). -/
structure FieldConfig where
  prettyName : Option String := none
  errorMessages : List (String × String) := []
deriving DecidableEq, Repr

/-- The part of the configuration the default renderer reads:
`config.fields`, an object mapping field names to `FieldConfig`. -/
structure RenderConfig where
  fields : List (String × FieldConfig) := []
deriving DecidableEq, Repr

/-- The bound form, as the renderer sees it: the list of its error slots
(`form.querySelectorAll('[data-sk-error]')`, in document order). -/
structure FormState where
  slots : List Slot
deriving DecidableEq, Repr

/-- JS property lookup on an object modelled as an association list:
`obj[key]` is the first binding of `key`, or `undefined` (`none`). -/
def assocLookup {α : Type} (m : List (String × α)) (k : String) : Option α :=
  (m.find? (fun p => p.1 == k)).map Prod.snd

/-- JS `v || dflt` on a value that is `undefined` or a string: `undefined`
and the empty string are falsy, every other string is truthy. -/
def jsOrString (v : Option String) (dflt : String) : String :=
  match v with
  | some s => if s = "" then dflt else s
  | none => dflt

/-- JS `String.prototype.toLowerCase` on the error code, modelled
character-wise (the codes in play are ASCII). -/
def toLowerString (s : String) : String :=
  ⟨s.data.map Char.toLower⟩

/-- Modelled from the spec: `toCamel` lives in `src/utils.js`, which is not
under `src/`.  The spec keys custom messages by the "lower-cased,
camel-cased error code", so a separator character (`-` or `_`) followed by
a letter is dropped and that letter is upper-cased; a separator followed by
anything else is kept.  `pending` holds a separator whose successor has not
been seen yet. -/
def toCamelChars (pending : Option Char) : List Char → List Char
  | [] =>
    match pending with
    | none => []
    | some sep => [sep]
  | c :: rest =>
    match pending with
    | none =>
      if c = '-' ∨ c = '_' then toCamelChars (some c) rest
      else c :: toCamelChars none rest
    | some sep =>
      if c.isLower then c.toUpper :: toCamelChars none rest
      else if c = '-' ∨ c = '_' then sep :: toCamelChars (some c) rest
      else sep :: c :: toCamelChars none rest

/-- Modelled from the spec: string-level wrapper of `toCamelChars`. -/
def toCamel (s : String) : String :=
  ⟨toCamelChars none s.data⟩

/-- The body of the `forEach` in the default renderer, for one slot:
find the first error whose `field` equals the slot's field name
(`errors.find`); with no match, clear the slot (`element.innerHTML = ''`);
with a match, write `errorMessages[code] || prettyName + ' ' + message`
where `code = toCamel(toLowerString error.codeCase())` and `prettyName` defaults
to `'This field'` (JS `||`, so an empty-string configured value also falls
through). -/
def renderSlot (config : RenderConfig) (errors : List FieldError) (slot : Slot) : Slot :=
  match errors.find? (fun error => error.field == slot.skError) with
  | none => { slot with innerHTML := "" }
  | some error =>
    let fieldConfig := (assocLookup config.fields error.field).getD {}
    let errorMessages := fieldConfig.errorMessages
    let pfx := jsOrString fieldConfig.prettyName "This field"
    let code := toCamel (toLowerString error.code)
    let fullMessage := jsOrString (assocLookup errorMessages code) (pfx ++ " " ++ error.message)
    { slot with innerHTML := fullMessage }

/-- The default error rendering hook: applies `renderSlot` to every error
slot of the form. -/
def renderErrors (config : RenderConfig) (form : FormState)
    (errors : List FieldError) : FormState :=
  { form with slots := form.slots.map (renderSlot config errors) }

/-! ## The default success callback (`onSuccess` in `forms.js`) -/

/-- A node in the bound form's parent: the bound form itself or some other
element with a tag and text content. -/
inductive Node where
  | formNode (f : FormState)
  | el (tag : String) (text : String)
deriving DecidableEq, Repr

/-- The `h` helper of the configuration (hyperscript): `h(tag, {}, text)`
builds a fresh element. -/
def h (tag : String) (text : String) : Node :=
  Node.el tag text

/-- `parentNode.replaceChild(replacement, oldChild)`: every child identical
to `oldChild` is replaced (DOM nodes are unique, so at most one is). -/
def replaceChild (children : List Node) (replacement oldChild : Node) : List Node :=
  children.map (fun n => if n = oldChild then replacement else n)

/-- The default success callback: builds `h('div', {}, 'Thank you!')` and
replaces the bound form with it in the form's parent. -/
def onSuccess (children : List Node) (form : FormState) : List Node :=
  replaceChild children (h "div" "Thank you!") (Node.formNode form)

/-! ## Element resolution and binding (`getFormElement`, `init`) -/

/-- A DOM element reference: only its tag name matters to the code; `key`
keeps distinct elements distinguishable. -/
structure DomElem where
  tagName : String
  key : Nat := 0
deriving DecidableEq, Repr

/-- The value passed as `element`: a direct DOM-element reference or a
selector string.  A string has no `tagName` property, so
`nodeOrSelector.tagName == 'FORM'` is false for it. -/
inductive ElementRef where
  | node (el : DomElem)
  | selector (s : String)
deriving DecidableEq, Repr

/-- The document boundary: `document.querySelector` applied to whatever
value the code hands it (a selector string, or a non-form element coerced
to a selector string), returning the matched element or `null`. -/
structure Document where
  querySelector : ElementRef → Option DomElem

/-- `getFormElement`: a value whose `tagName` is `'FORM'` is returned
as-is; any other value — selector string or non-form element — is handed to
`document.querySelector`. -/
def getFormElement (doc : Document) (nodeOrSelector : ElementRef) : Option DomElem :=
  match nodeOrSelector with
  | ElementRef.node el =>
    if el.tagName == "FORM" then some el else doc.querySelector nodeOrSelector
  | ElementRef.selector _ => doc.querySelector nodeOrSelector

/-- The properties `init` inspects: `props.id` and `props.element`, each
possibly absent. -/
structure InitProps where
  id : Option String := none
  element : Option ElementRef := none
deriving Repr

/-- JS `!props.id`: true when `id` is absent or the empty string. -/
def jsFalsyId : Option String → Bool
  | none => true
  | some s => s == ""

/-- JS `!props.element`: true when `element` is absent; an element
reference is always truthy, a selector string is falsy only when empty. -/
def jsFalsyElement : Option ElementRef → Bool
  | none => true
  | some (ElementRef.selector s) => s == ""
  | some (ElementRef.node _) => false

/-- Observable steps of `setup`, in program order: attaching the submit
listener to the resolved element, then `enable(config)`, then
`onInit(config)`. -/
inductive BindEv where
  | attachListener (el : DomElem)
  | enableCalled
  | onInitCalled
deriving DecidableEq, Repr

/-- `init`: throws synchronously on a falsy `id`, then on a falsy
`element`, then when `getFormElement` resolves to nothing; otherwise merges
the configuration and runs `setup`, which attaches the submit listener,
enables the submit controls and invokes the init hook, returning `true`.
The result pairs the performed bind steps with the returned value or the
thrown error. -/
def init (doc : Document) (props : InitProps) : List BindEv × Except String Bool :=
  if jsFalsyId props.id then
    ([], Except.error "You must define an `id` property")
  else if jsFalsyElement props.element then
    ([], Except.error "You must define an `element` property")
  else
    match props.element with
    | none => ([], Except.error "You must define an `element` property")
    | some element =>
      match getFormElement doc element with
      | none => ([], Except.error "Element not found")
      | some form =>
        ([BindEv.attachListener form, BindEv.enableCalled, BindEv.onInitCalled],
          Except.ok true)

/-! ## Outbound data assembly (top of `submit`) -/

/-- A value stored under a key of `config.data`: a literal (appended
as-is) or a function (called with the configuration at submission time).
`γ` is the type of the configuration object the functions receive. -/
inductive DataEntryVal (γ : Type) where
  | lit (v : String)
  | func (f : γ → String)

/-- The `data` entry of the configuration, discriminated the way
`typeof` sees it. -/
inductive DataConfig (γ : Type) where
  | obj (entries : List (String × DataEntryVal γ))
  | str (s : String)
  | num (n : Int)
  | undef
  | null

/-- JS `typeof data === 'object'`: true for objects and for `null`. -/
def typeofIsObject {γ : Type} : DataConfig γ → Bool
  | DataConfig.obj _ => true
  | DataConfig.null => true
  | _ => false

/-- The `for (const prop in data)` loop: each entry is appended to the
form data in order; a function value is called with the configuration
(`data[prop].call(null, config)`), any other value is appended literally. -/
def appendDataLoop {γ : Type} (config : γ) (entries : List (String × DataEntryVal γ))
    (formData : List (String × String)) : List (String × String) :=
  match entries with
  | [] => formData
  | (prop, v) :: rest =>
    match v with
    | DataEntryVal.func f => appendDataLoop config rest (formData ++ [(prop, f config)])
    | DataEntryVal.lit s => appendDataLoop config rest (formData ++ [(prop, s)])

/-- The outbound data set: `new FormData(form)` seeded with the form's own
field values, then the config-data loop, guarded by
`typeof data === 'object'` (`for..in` over `null` iterates nothing). -/
def buildFormData {γ : Type} (config : γ) (formFields : List (String × String))
    (data : DataConfig γ) : List (String × String) :=
  if typeofIsObject data then
    match data with
    | DataConfig.obj entries => appendDataLoop config entries formFields
    | _ => formFields
  else
    formFields

/-- Evaluation of one data entry as the claim describes it: functions are
applied to the configuration, literals pass through. -/
def evalDataEntry {γ : Type} (config : γ) : DataEntryVal γ → String
  | DataEntryVal.func f => f config
  | DataEntryVal.lit s => s

/-! ## Spec-side renderer definitions (for comparison with `renderSlot`) -/

/-- The per-slot rendering exactly as the claim words it: the first
matching error wins; with no match the slot is cleared; with a match the
per-field custom message keyed by the lower-cased then camel-cased code is
rendered whenever such a message is configured, and otherwise the string
`prettyName ++ " " ++ message` with `prettyName` defaulting to
`"This field"` when not configured. -/
def renderSlotClaim (config : RenderConfig) (errors : List FieldError) (slot : Slot) : Slot :=
  match errors.find? (fun error => error.field == slot.skError) with
  | none => { slot with innerHTML := "" }
  | some error =>
    let fieldConfig := (assocLookup config.fields error.field).getD {}
    let pn :=
      match fieldConfig.prettyName with
      | some s => s
      | none => "This field"
    match assocLookup fieldConfig.errorMessages (toCamel (toLowerString error.code)) with
    | some m => { slot with innerHTML := m }
    | none => { slot with innerHTML := pn ++ " " ++ error.message }

/-- The per-slot rendering as the claim must be amended: a configured
custom message (or prettyName) that is the empty string is falsy under the
JS `||` operator, so it falls through to the fallback exactly as an absent
one does. -/
def renderSlotSpec (config : RenderConfig) (errors : List FieldError) (slot : Slot) : Slot :=
  match errors.find? (fun error => error.field == slot.skError) with
  | none => { slot with innerHTML := "" }
  | some error =>
    let fieldConfig := (assocLookup config.fields error.field).getD {}
    let pn :=
      match fieldConfig.prettyName with
      | some s => if s = "" then "This field" else s
      | none => "This field"
    let fallback := pn ++ " " ++ error.message
    match assocLookup fieldConfig.errorMessages (toCamel (toLowerString error.code)) with
    | some m => if m = "" then { slot with innerHTML := fallback } else { slot with innerHTML := m }
    | none => { slot with innerHTML := fallback }

/-! ## Proof-layer characterizations -/

/-- The content the default renderer writes into a slot for field `field`:
empty when no error matches, the computed display message otherwise. -/
def displayMessage (config : RenderConfig) (errors : List FieldError) (field : String) : String :=
  match errors.find? (fun error => error.field == field) with
  | none => ""
  | some error =>
    let fieldConfig := (assocLookup config.fields error.field).getD {}
    let pfx := jsOrString fieldConfig.prettyName "This field"
    let code := toCamel (toLowerString error.code)
    jsOrString (assocLookup fieldConfig.errorMessages code) (pfx ++ " " ++ error.message)

/-- `renderSlot` reads a slot only through its field name and overwrites
only its content. -/
lemma renderSlot_characterization (config : RenderConfig) (errors : List FieldError)
    (slot : Slot) :
    renderSlot config errors slot
      = { skError := slot.skError, innerHTML := displayMessage config errors slot.skError } := by
  unfold renderSlot displayMessage
  cases errors.find? (fun error => error.field == slot.skError) <;> rfl

/-- Unfolding of `appendDataLoop`: the loop appends the evaluated entries
in order after the accumulated form data. -/
lemma appendDataLoop_eq {γ : Type} (config : γ) (entries : List (String × DataEntryVal γ)) :
    ∀ formData : List (String × String),
      appendDataLoop config entries formData
        = formData ++ entries.map (fun p => (p.1, evalDataEntry config p.2)) := by
  induction entries with
  | nil => intro formData; simp [appendDataLoop]
  | cons head tail ih =>
    intro formData
    obtain ⟨prop, v⟩ := head
    cases v with
    | func f => simp [appendDataLoop, evalDataEntry, ih]
    | lit s => simp [appendDataLoop, evalDataEntry, ih]

/-- Whenever the three pre-`try` calls return normally, the trace of
`submit` is the fixed prefix, then the network call, then a middle segment
free of `enable` calls and network calls, then exactly one `enable` call. -/
lemma submit_trace_decomp (config : SubmitConfig) (clientCall : ClientOutcome)
    (h1 : config.renderErrorsThrows [] = none)
    (h2 : config.disableThrows = none)
    (h3 : config.onSubmitThrows = none) :
    ∃ mid : List Ev,
      (submit config clientCall).1
        = [Ev.callRenderErrors [], Ev.callDisable, Ev.callOnSubmit, Ev.networkCall]
            ++ mid ++ [Ev.callEnable]
        ∧ mid.countP isEnable = 0 ∧ mid.countP isNetworkCall = 0 := by
  unfold submit
  rw [h1, h2, h3]
  rcases clientCall with result | e
  · by_cases hs : result.response.status = 200
    · cases hos : config.onSuccessThrows result.body with
      | some e =>
        cases het : config.enableThrows <;>
          exact ⟨[Ev.callOnSuccess result.body, Ev.callDefaultOnFailure e],
            by simp [hs, hos, het, isEnable, isNetworkCall]⟩
      | none =>
        cases het : config.enableThrows <;>
          exact ⟨[Ev.callOnSuccess result.body],
            by simp [hs, hos, het, isEnable, isNetworkCall]⟩
    · cases hre : config.renderErrorsThrows result.body.errors with
      | some e =>
        cases het : config.enableThrows <;>
          exact ⟨[Ev.callRenderErrors result.body.errors, Ev.callDefaultOnFailure e],
            by simp [hs, hre, het, isEnable, isNetworkCall]⟩
      | none =>
        cases hoe : config.onErrorThrows result.body.errors with
        | some e =>
          cases het : config.enableThrows <;>
            exact ⟨[Ev.callRenderErrors result.body.errors, Ev.callOnError result.body.errors,
                Ev.callDefaultOnFailure e],
              by simp [hs, hre, hoe, het, isEnable, isNetworkCall]⟩
        | none =>
          cases het : config.enableThrows <;>
            exact ⟨[Ev.callRenderErrors result.body.errors, Ev.callOnError result.body.errors],
              by simp [hs, hre, hoe, het, isEnable, isNetworkCall]⟩
  · cases het : config.enableThrows <;>
      exact ⟨[Ev.callDefaultOnFailure e], by simp [het, isEnable, isNetworkCall]⟩

/-! ## Claim theorems -/

/-- A configuration whose configured failure hook would throw were it ever
invoked; every other hook returns normally. -/
def failureSensitiveConfig : SubmitConfig :=
  { quietConfig with onFailureThrows := fun _ => some 7 }

/-- C1: on a transport failure the `catch` block of `submit` calls the
module-level default failure callback, not the failure hook carried by the
configuration: the trace and the settlement are insensitive to the
configured hook (first conjunct, for every configured behaviour `g`), and
with a configured hook that would throw, the run still emits only
`callDefaultOnFailure` and resolves (second conjunct) — had the configured
hook been invoked, its throw would have changed the settlement. -/
theorem configured_failure_hook_ignored_on_transport_failure :
    (∀ g : Nat → Option Nat,
      submit { quietConfig with onFailureThrows := g } (ClientOutcome.reject 3)
        = submit quietConfig (ClientOutcome.reject 3))
    ∧ submit failureSensitiveConfig (ClientOutcome.reject 3)
      = ([Ev.callRenderErrors [], Ev.callDisable, Ev.callOnSubmit, Ev.networkCall,
          Ev.callDefaultOnFailure 3, Ev.callEnable], Outcome.resolves) :=
  ⟨fun _ => rfl, rfl⟩

/-- C2: whenever the three pre-`try` calls return normally (so a result
branch is reached at all), the disable hook is called before the network
call begins, and the enable hook is called exactly once — for every client
outcome and every behaviour of the result-classification hooks, including
throwing ones. -/
theorem disable_before_network_and_enable_exactly_once
    (config : SubmitConfig) (clientCall : ClientOutcome)
    (h1 : config.renderErrorsThrows [] = none)
    (h2 : config.disableThrows = none)
    (h3 : config.onSubmitThrows = none) :
    Ev.callDisable ∈ beforeNetworkCall (submit config clientCall).1
    ∧ (submit config clientCall).1.countP isEnable = 1 := by
  obtain ⟨mid, htr, hmidE, _⟩ := submit_trace_decomp config clientCall h1 h2 h3
  rw [htr]
  constructor
  · simp [beforeNetworkCall, isNetworkCall, List.takeWhile_cons]
  · simp [List.countP_append, List.countP_cons, isEnable, hmidE]

/-- Witness for C2: a concrete run (all hooks quiet, client rejects). -/
theorem disable_before_network_and_enable_exactly_once_witness :
    Ev.callDisable ∈ beforeNetworkCall (submit quietConfig (ClientOutcome.reject 3)).1
    ∧ (submit quietConfig (ClientOutcome.reject 3)).1.countP isEnable = 1 :=
  disable_before_network_and_enable_exactly_once quietConfig (ClientOutcome.reject 3)
    rfl rfl rfl

/-- C3 counterexample: on a 422 response whose error list is empty, the
submit routine invokes the renderer twice with the returned list — the
pre-submission clearing call already passed the same (empty) list — so
"invokes the Error Renderer exactly once with that list" fails as stated. -/
theorem validation_renderer_not_exactly_once_on_empty_list :
    ((submit quietConfig (ClientOutcome.resolve
        { response := { status := 422 }, body := { payload := 0, errors := [] } })).1.count
      (Ev.callRenderErrors []) = 2)
    ∧ ¬ ((submit quietConfig (ClientOutcome.resolve
        { response := { status := 422 }, body := { payload := 0, errors := [] } })).1.count
      (Ev.callRenderErrors []) = 1) := by
  decide

/-- C3 (amended): for every non-200 response, after the network call the
submit routine invokes the renderer once with the error list extracted from
the body and then the validation-error hook with the identical list, in
that order; the renderer is additionally invoked once with the empty list
before the network call (the clearing step), so when the extracted list is
empty the renderer receives it twice in total.  Stated as the full trace of
the run in which no hook throws. -/
theorem validation_renders_then_onError
    (config : SubmitConfig) (result : SubmitResult)
    (hstatus : result.response.status ≠ 200)
    (h1 : config.renderErrorsThrows [] = none)
    (h2 : config.disableThrows = none)
    (h3 : config.onSubmitThrows = none)
    (h4 : config.renderErrorsThrows result.body.errors = none)
    (h5 : config.onErrorThrows result.body.errors = none)
    (h6 : config.enableThrows = none) :
    submit config (ClientOutcome.resolve result)
      = ([Ev.callRenderErrors [], Ev.callDisable, Ev.callOnSubmit, Ev.networkCall,
          Ev.callRenderErrors result.body.errors, Ev.callOnError result.body.errors,
          Ev.callEnable], Outcome.resolves) := by
  unfold submit
  rw [h1, h2, h3]
  simp [hstatus, h4, h5, h6]

/-- The field error of the spec's validation scenario. -/
def emailInvalid : FieldError :=
  { field := "email", code := "INVALID", message := "is invalid" }

/-- Witness for the amended C3: a concrete 422 run with one field error. -/
theorem validation_renders_then_onError_witness :
    submit quietConfig (ClientOutcome.resolve
        { response := { status := 422 }, body := { payload := 0, errors := [emailInvalid] } })
      = ([Ev.callRenderErrors [], Ev.callDisable, Ev.callOnSubmit, Ev.networkCall,
          Ev.callRenderErrors [emailInvalid], Ev.callOnError [emailInvalid],
          Ev.callEnable], Outcome.resolves) :=
  validation_renders_then_onError quietConfig
    { response := { status := 422 }, body := { payload := 0, errors := [emailInvalid] } }
    (by decide) rfl rfl rfl rfl rfl rfl

/-- C4: on a 200 response (the pre-`try` calls returning normally), the
submit routine calls the success hook exactly once with the response body,
never invokes the renderer with a non-empty error list during the run, and
the default success callback replaces the bound form in its parent with a
`div` reading `Thank you!`, removing the form from the document. -/
theorem success_branch_behaviour
    (config : SubmitConfig) (result : SubmitResult)
    (children : List Node) (form : FormState)
    (h1 : config.renderErrorsThrows [] = none)
    (h2 : config.disableThrows = none)
    (h3 : config.onSubmitThrows = none)
    (hstatus : result.response.status = 200)
    (hmem : Node.formNode form ∈ children) :
    ((submit config (ClientOutcome.resolve result)).1.count (Ev.callOnSuccess result.body) = 1)
    ∧ ((submit config (ClientOutcome.resolve result)).1.countP isRenderNonempty = 0)
    ∧ Node.formNode form ∉ onSuccess children form
    ∧ Node.el "div" "Thank you!" ∈ onSuccess children form := by
  refine ⟨?_, ?_, ?_, ?_⟩
  · unfold submit
    rw [h1, h2, h3]
    cases hos : config.onSuccessThrows result.body <;>
      cases het : config.enableThrows <;>
        simp [hstatus, hos, het, List.count_append, List.count_cons]
  · unfold submit
    rw [h1, h2, h3]
    cases hos : config.onSuccessThrows result.body <;>
      cases het : config.enableThrows <;>
        simp [hstatus, hos, het, List.countP_append, List.countP_cons, isRenderNonempty]
  · intro hx
    simp only [onSuccess, replaceChild, h, List.mem_map] at hx
    rcases hx with ⟨n, _, heq⟩
    by_cases hEq : n = Node.formNode form
    · rw [if_pos hEq] at heq
      exact Node.noConfusion heq
    · rw [if_neg hEq] at heq
      exact hEq heq
  · simp only [onSuccess, replaceChild, h, List.mem_map]
    exact ⟨Node.formNode form, hmem, by simp⟩

/-- A plain successful result: status 200, empty body. -/
def ok200 : SubmitResult := { response := { status := 200 }, body := {} }

/-- A sample bound form with one error slot. -/
def formW : FormState := { slots := [{ skError := "email", innerHTML := "" }] }

/-- Witness for C4: a concrete 200 run and a concrete parent holding the
bound form next to a sibling. -/
theorem success_branch_behaviour_witness :
    ((submit quietConfig (ClientOutcome.resolve ok200)).1.count
        (Ev.callOnSuccess ok200.body) = 1)
    ∧ ((submit quietConfig (ClientOutcome.resolve ok200)).1.countP isRenderNonempty = 0)
    ∧ Node.formNode formW ∉ onSuccess [Node.formNode formW, Node.el "p" "x"] formW
    ∧ Node.el "div" "Thank you!" ∈ onSuccess [Node.formNode formW, Node.el "p" "x"] formW :=
  success_branch_behaviour quietConfig ok200 [Node.formNode formW, Node.el "p" "x"] formW
    rfl rfl rfl rfl (by simp)

/-- C8: when a hook invoked during result classification throws (the
success hook on a 200 response, or the renderer or the validation-error
hook on a non-200 response), the throw is caught inside `submit`: the
module-level default failure callback receives the thrown value, the
enable hook still runs, and the returned promise resolves. -/
theorem classification_hook_throw_caught
    (config : SubmitConfig) (result : SubmitResult) (e : Nat)
    (h1 : config.renderErrorsThrows [] = none)
    (h2 : config.disableThrows = none)
    (h3 : config.onSubmitThrows = none)
    (h6 : config.enableThrows = none) :
    (result.response.status = 200 → config.onSuccessThrows result.body = some e →
      submit config (ClientOutcome.resolve result)
        = ([Ev.callRenderErrors [], Ev.callDisable, Ev.callOnSubmit, Ev.networkCall,
            Ev.callOnSuccess result.body, Ev.callDefaultOnFailure e, Ev.callEnable],
          Outcome.resolves))
    ∧ (result.response.status ≠ 200 →
        config.renderErrorsThrows result.body.errors = some e →
        submit config (ClientOutcome.resolve result)
          = ([Ev.callRenderErrors [], Ev.callDisable, Ev.callOnSubmit, Ev.networkCall,
              Ev.callRenderErrors result.body.errors, Ev.callDefaultOnFailure e,
              Ev.callEnable], Outcome.resolves))
    ∧ (result.response.status ≠ 200 →
        config.renderErrorsThrows result.body.errors = none →
        config.onErrorThrows result.body.errors = some e →
        submit config (ClientOutcome.resolve result)
          = ([Ev.callRenderErrors [], Ev.callDisable, Ev.callOnSubmit, Ev.networkCall,
              Ev.callRenderErrors result.body.errors, Ev.callOnError result.body.errors,
              Ev.callDefaultOnFailure e, Ev.callEnable], Outcome.resolves)) := by
  refine ⟨fun hs hthrow => ?_, fun hs hthrow => ?_, fun hs hre hthrow => ?_⟩ <;>
    (unfold submit; rw [h1, h2, h3])
  · simp [hs, hthrow, h6]
  · simp [hs, hthrow, h6]
  · simp [hs, hre, hthrow, h6]

/-- A configuration whose success hook always throws `5`. -/
def throwingSuccessConfig : SubmitConfig :=
  { quietConfig with onSuccessThrows := fun _ => some 5 }

/-- Witness for C8: the success hook throws on a concrete 200 run. -/
theorem classification_hook_throw_caught_witness :
    submit throwingSuccessConfig (ClientOutcome.resolve ok200)
      = ([Ev.callRenderErrors [], Ev.callDisable, Ev.callOnSubmit, Ev.networkCall,
          Ev.callOnSuccess ok200.body, Ev.callDefaultOnFailure 5, Ev.callEnable],
        Outcome.resolves) :=
  (classification_hook_throw_caught throwingSuccessConfig ok200 5 rfl rfl rfl rfl).1 rfl rfl

/-- The source renderer and the amended spec renderer agree on every slot. -/
lemma renderSlot_eq_spec (config : RenderConfig) (errors : List FieldError) (slot : Slot) :
    renderSlot config errors slot = renderSlotSpec config errors slot := by
  unfold renderSlot renderSlotSpec
  split
  · rfl
  · simp only [jsOrString]
    split
    · next m _ =>
      by_cases hme : m = "" <;> simp [hme]
    · rfl

/-- The configuration of the C5 counterexample: field `email` carries a
configured custom message for code `invalid` that is the empty string. -/
def emptyMessageConfig : RenderConfig :=
  { fields := [("email", { prettyName := none, errorMessages := [("invalid", "")] })] }

/-- C5 counterexample: with a configured empty-string custom message the
code renders the fallback `"This field is invalid"`, not the configured
message, so "renders the per-field custom message ... when such a message
is configured" fails as stated at this input. -/
theorem renderer_ignores_empty_custom_message :
    renderSlot emptyMessageConfig [emailInvalid] { skError := "email", innerHTML := "x" }
        ≠ renderSlotClaim emptyMessageConfig [emailInvalid]
          { skError := "email", innerHTML := "x" }
    ∧ (renderSlot emptyMessageConfig [emailInvalid]
        { skError := "email", innerHTML := "x" }).innerHTML = "This field is invalid"
    ∧ (renderSlotClaim emptyMessageConfig [emailInvalid]
        { skError := "email", innerHTML := "x" }).innerHTML = "" := by
  decide

/-- C5 (amended): for every slot the default renderer behaves exactly as
the claim describes, amended by JS falsiness: a configured custom message
(or prettyName) that is the empty string falls through to the fallback
exactly as an absent one does. -/
theorem renderErrors_matches_spec (config : RenderConfig) (form : FormState)
    (errors : List FieldError) :
    renderErrors config form errors
      = { form with slots := form.slots.map (renderSlotSpec config errors) } :=
  congrArg FormState.mk
    (List.map_congr_left (fun slot _ => renderSlot_eq_spec config errors slot))

/-- C6: a missing `id`, a missing `element`, or an `element` that resolves
to no DOM element makes `init` throw synchronously with no bind step
performed: no submit listener is attached, the submit controls are not
enabled and the init hook is not invoked. -/
theorem init_config_error_before_binding (doc : Document) (props : InitProps)
    (hbad : props.id = none ∨ props.element = none
      ∨ ∃ ref, props.element = some ref ∧ getFormElement doc ref = none) :
    ∃ msg, init doc props = ([], Except.error msg) := by
  rcases hbad with hid | hel | ⟨ref, hel, hres⟩
  · exact ⟨"You must define an `id` property", by simp [init, jsFalsyId, hid]⟩
  · by_cases hidf : jsFalsyId props.id
    · exact ⟨"You must define an `id` property", by simp [init, hidf]⟩
    · exact ⟨"You must define an `element` property",
        by simp [init, hidf, jsFalsyElement, hel]⟩
  · by_cases hidf : jsFalsyId props.id
    · exact ⟨"You must define an `id` property", by simp [init, hidf]⟩
    · by_cases helf : jsFalsyElement props.element
      · exact ⟨"You must define an `element` property", by simp [init, hidf, helf]⟩
      · rw [hel] at helf
        exact ⟨"Element not found", by simp [init, hidf, helf, hel, hres]⟩

/-- A document in which no selector matches anything. -/
def emptyDoc : Document := { querySelector := fun _ => none }

/-- Witness for C6: a well-formed id with a selector matching nothing. -/
theorem init_config_error_before_binding_witness :
    ∃ msg, init emptyDoc { id := some "f1", element := some (ElementRef.selector "#nope") }
      = ([], Except.error msg) :=
  init_config_error_before_binding emptyDoc
    { id := some "f1", element := some (ElementRef.selector "#nope") }
    (Or.inr (Or.inr ⟨ElementRef.selector "#nope", rfl, rfl⟩))

/-- C7: the default renderer is idempotent — rendering the same list twice
yields the state of rendering it once — and rendering the empty list after
any previous render clears every slot. -/
theorem renderErrors_idempotent_and_empty_clears (config : RenderConfig)
    (form : FormState) (errors : List FieldError) :
    renderErrors config (renderErrors config form errors) errors
        = renderErrors config form errors
    ∧ ((renderErrors config (renderErrors config form errors) []).slots.all
        (fun slot => slot.innerHTML == "")) = true := by
  constructor
  · show FormState.mk
        ((form.slots.map (renderSlot config errors)).map (renderSlot config errors))
      = FormState.mk (form.slots.map (renderSlot config errors))
    rw [List.map_map]
    exact congrArg FormState.mk
      (List.map_congr_left (fun slot _ => by
        simp [Function.comp, renderSlot_characterization]))
  · simp [renderErrors, List.all_eq_true, List.mem_map, renderSlot_characterization,
      displayMessage]

/-- C9: element resolution checks the tag only on direct references — a
value whose `tagName` is `'FORM'` is used as-is, every other value
(selector string or non-form element) is handed to
`document.querySelector` — and a selector resolving to any element, form
or not, is accepted and bound without a form check. -/
theorem getFormElement_tag_check_only_on_direct_refs :
    (∀ (doc : Document) (el : DomElem), el.tagName = "FORM" →
      getFormElement doc (ElementRef.node el) = some el)
    ∧ (∀ (doc : Document) (el : DomElem), el.tagName ≠ "FORM" →
        getFormElement doc (ElementRef.node el) = doc.querySelector (ElementRef.node el))
    ∧ (∀ (doc : Document) (s : String),
        getFormElement doc (ElementRef.selector s)
          = doc.querySelector (ElementRef.selector s))
    ∧ (∀ (doc : Document) (s : String) (el : DomElem), s ≠ "" →
        doc.querySelector (ElementRef.selector s) = some el →
        init doc { id := some "f1", element := some (ElementRef.selector s) }
          = ([BindEv.attachListener el, BindEv.enableCalled, BindEv.onInitCalled],
            Except.ok true)) := by
  refine ⟨?_, ?_, ?_, ?_⟩
  · intro doc el hf
    simp [getFormElement, hf]
  · intro doc el hf
    simp [getFormElement, hf]
  · intro doc s
    rfl
  · intro doc s el hs hq
    simp [init, jsFalsyId, jsFalsyElement, getFormElement, hs, hq]

/-- A document whose every query resolves to one `div` element. -/
def divDoc : Document := { querySelector := fun _ => some { tagName := "DIV", key := 1 } }

/-- Witness for C9: a selector matching a `div` is bound without error. -/
theorem getFormElement_tag_check_witness :
    init divDoc { id := some "f1", element := some (ElementRef.selector ".box") }
      = ([BindEv.attachListener { tagName := "DIV", key := 1 }, BindEv.enableCalled,
          BindEv.onInitCalled], Except.ok true) :=
  getFormElement_tag_check_only_on_direct_refs.2.2.2 divDoc ".box"
    { tagName := "DIV", key := 1 } (by decide) rfl

/-- C10: a `data` entry that is not of `typeof`-object type contributes no
extra fields beyond the form's own, while an object's entries are appended
in order — function values evaluated with the configuration at submission
time, any other value appended literally. -/
theorem data_appending (γ : Type) (config : γ) (formFields : List (String × String)) :
    (∀ s, buildFormData config formFields (DataConfig.str s) = formFields)
    ∧ (∀ n, buildFormData config formFields (DataConfig.num n) = formFields)
    ∧ buildFormData config formFields DataConfig.undef = formFields
    ∧ ∀ entries, buildFormData config formFields (DataConfig.obj entries)
        = formFields ++ entries.map (fun p => (p.1, evalDataEntry config p.2)) := by
  refine ⟨fun s => rfl, fun n => rfl, rfl, fun entries => ?_⟩
  simp [buildFormData, typeofIsObject, appendDataLoop_eq]

end StaticKit.Forms
